import Mathlib

/-!
A shallow embedding of the DeviceLink reconciliation controller
(`pkg/limb/controller/devicelink.go` of the octopus repository), together
with theorems checking its natural-language specification against it.

External collaborators (the resource store, the connection manager
"suction cup", the metrics recorder) are modelled as per-pass oracles
collected in `Env`; every externally visible effect of one reconciliation
pass is recorded, in execution order, in a trace of `Event`s.  Go maps are
modelled as association lists whose insert replaces the value of an
existing key in place; `reflect.DeepEqual` on maps is modelled as
extensional (lookup-wise) equality.
-/

/-- Tri-state condition value (`metav1.ConditionStatus`, restricted to the
three values the controller distinguishes). -/
inductive ConditionStatus where
  | conditionTrue
  | conditionFalse
  | conditionUnknown
deriving DecidableEq, Repr

/-- Association-list model of a Go map with string keys. -/
abbrev AMap (α : Type) := List (String × α)

/-- Lookup of a key (first occurrence). -/
def amLookup {α : Type} (k : String) : AMap α → Option α
  | [] => none
  | (k', v) :: m => if k' = k then some v else amLookup k m

/-- Map update `m[k] = v`: replaces the value at an existing key in place,
appends otherwise. -/
def amInsert {α : Type} (k : String) (v : α) : AMap α → AMap α
  | [] => [(k, v)]
  | (k', v') :: m => if k' = k then (k', v) :: m else (k', v') :: amInsert k v m

/-- The keys of a map. -/
def amKeys {α : Type} (m : AMap α) : List String := m.map Prod.fst

/-- Extensional equality of two maps, as `reflect.DeepEqual` compares Go
maps: same value (or absence) at every key. -/
def amDeepEqual {α : Type} [DecidableEq α] (a b : AMap α) : Bool :=
  (amKeys a ++ amKeys b).all fun k => amLookup k a == amLookup k b

/-- Modelled from the spec: `collection.StringMapCopyInto` of
`pkg/util/collection` (not under src/); the declared entries are "copied
on top of the existing map". -/
def StringMapCopyInto (src dst : AMap String) : AMap String :=
  src.foldl (fun acc kv => amInsert kv.1 kv.2 acc) dst

/-- Modelled from the spec: `collection.StringMapCopy` of
`pkg/util/collection` (not under src/); a fresh copy of the map. -/
def StringMapCopy (src : AMap String) : AMap String :=
  StringMapCopyInto src []

/-- Modelled from the spec: `collection.StringSliceContain` of
`pkg/util/collection` (not under src/). -/
def StringSliceContain (ss : List String) (s : String) : Bool :=
  ss.contains s

/-- Modelled from the spec: `collection.StringSliceRemove` of
`pkg/util/collection` (not under src/); removes the marker from the
slice. -/
def StringSliceRemove (ss : List String) (s : String) : List String :=
  ss.filter fun x => x != s

/-- Modelled from the spec: the opaque template spec payload handed to
`jsoniter.Unmarshal` (an external library).  A payload is either malformed
structured data or a well-formed key-ordered mapping; decoding "must fail
the pass with a decode error if the payload is not well-formed structured
data" and is deterministic. -/
inductive SpecPayload where
  | malformed
  | wellFormed (m : AMap Nat)
deriving DecidableEq, Repr

/-- Modelled from the spec: deterministic decode of the template spec
payload (`jsoniter.Unmarshal` in the source). -/
def jsoniterUnmarshal : SpecPayload → Except String (AMap Nat)
  | .malformed => .error "invalid structured data"
  | .wellFormed m => .ok m

/-- `edgev1alpha1.DeviceAdaptor`: adaptor reference of a link.  The
`parameters` field models the `*runtime.RawExtension` pointer: `none` is a
nil pointer, `some raw` carries the raw bytes. -/
structure DeviceAdaptor where
  name : String
  node : String
  parameters : Option String
deriving DecidableEq, Repr

/-- `metav1.TypeMeta`: the model reference of a link. -/
structure TypeMeta where
  kind : String
  apiVersion : String
deriving DecidableEq, Repr

/-- The declared device template: labels plus the opaque spec payload. -/
structure DeviceTemplate where
  labels : AMap String
  specRaw : SpecPayload
deriving DecidableEq, Repr

/-- `edgev1alpha1.DeviceLinkSpec`: the declared part of a link. -/
structure DeviceLinkSpec where
  adaptor : DeviceAdaptor
  model : TypeMeta
  template : DeviceTemplate
deriving DecidableEq, Repr

/-- `edgev1alpha1.DeviceLinkStatus`: the status owned by the Reconciler.
The four conditions are modelled as explicit tri-state fields (the
condition-array helpers of `pkg/status/devicelink` are not under src/ and
are modelled from the spec as accessors/updaters of these fields). -/
structure DeviceLinkStatus where
  nodeName : String
  adaptorName : String
  adaptor : DeviceAdaptor
  model : TypeMeta
  modelExisted : ConditionStatus
  adaptorExisted : ConditionStatus
  deviceCreated : ConditionStatus
  deviceConnected : ConditionStatus
deriving DecidableEq, Repr

/-- `edgev1alpha1.DeviceLink`: the root record.  `deleted` models the
presence of a deletion timestamp (`object.IsDeleted`). -/
structure DeviceLink where
  name : String
  namespace' : String
  finalizers : List String
  deleted : Bool
  spec : DeviceLinkSpec
  status : DeviceLinkStatus
deriving DecidableEq, Repr

/-- Modelled from the spec: `object.IsDeleted` of `pkg/util/object` (not
under src/): whether the record carries a deletion marker. -/
def IsDeleted (link : DeviceLink) : Bool := link.deleted

/-- Modelled from the spec: condition accessor of `pkg/status/devicelink`
(not under src/). -/
def GetModelExistedStatus (st : DeviceLinkStatus) : ConditionStatus := st.modelExisted

/-- Modelled from the spec: condition accessor of `pkg/status/devicelink`
(not under src/). -/
def GetAdaptorExistedStatus (st : DeviceLinkStatus) : ConditionStatus := st.adaptorExisted

/-- Modelled from the spec: condition accessor of `pkg/status/devicelink`
(not under src/). -/
def GetDeviceCreatedStatus (st : DeviceLinkStatus) : ConditionStatus := st.deviceCreated

/-- Modelled from the spec: condition accessor of `pkg/status/devicelink`
(not under src/). -/
def GetDeviceConnectedStatus (st : DeviceLinkStatus) : ConditionStatus := st.deviceConnected

/-- Modelled from the spec: resets AdaptorExisted to Unknown
(`devicelink.ToCheckAdaptorExisted`, not under src/). -/
def ToCheckAdaptorExisted (st : DeviceLinkStatus) : DeviceLinkStatus :=
  { st with adaptorExisted := .conditionUnknown }

/-- Modelled from the spec: sets AdaptorExisted to True
(`devicelink.SuccessOnAdaptorExisted`, not under src/). -/
def SuccessOnAdaptorExisted (st : DeviceLinkStatus) : DeviceLinkStatus :=
  { st with adaptorExisted := .conditionTrue }

/-- Modelled from the spec: sets AdaptorExisted to False with a reason
(`devicelink.FailOnAdaptorExisted`, not under src/). -/
def FailOnAdaptorExisted (st : DeviceLinkStatus) (_msg : String) : DeviceLinkStatus :=
  { st with adaptorExisted := .conditionFalse }

/-- Modelled from the spec: resets DeviceCreated to Unknown
(`devicelink.ToCheckDeviceCreated`, not under src/). -/
def ToCheckDeviceCreated (st : DeviceLinkStatus) : DeviceLinkStatus :=
  { st with deviceCreated := .conditionUnknown }

/-- Modelled from the spec: sets DeviceCreated to True
(`devicelink.SuccessOnDeviceCreated`, not under src/). -/
def SuccessOnDeviceCreated (st : DeviceLinkStatus) : DeviceLinkStatus :=
  { st with deviceCreated := .conditionTrue }

/-- Modelled from the spec: sets DeviceCreated to False with a reason
(`devicelink.FailOnDeviceCreated`, not under src/). -/
def FailOnDeviceCreated (st : DeviceLinkStatus) (_msg : String) : DeviceLinkStatus :=
  { st with deviceCreated := .conditionFalse }

/-- Modelled from the spec: sets DeviceConnected to True
(`devicelink.SuccessOnDeviceConnected`, not under src/). -/
def SuccessOnDeviceConnected (st : DeviceLinkStatus) : DeviceLinkStatus :=
  { st with deviceConnected := .conditionTrue }

/-- Modelled from the spec: sets DeviceConnected to False with a reason
(`devicelink.FailOnDeviceConnected`, not under src/). -/
def FailOnDeviceConnected (st : DeviceLinkStatus) (_msg : String) : DeviceLinkStatus :=
  { st with deviceConnected := .conditionFalse }

/-- The dependent device representation (`unstructured.Unstructured`
restricted to the fields the controller reads and writes). -/
structure Device where
  kind : String
  apiVersion : String
  name : String
  namespace' : String
  labels : AMap String
  annotations : AMap String
  spec : AMap Nat
deriving DecidableEq, Repr

/-- `reflect.DeepEqual` on the device content: field-wise, with maps
compared extensionally. -/
def deepEqualDevice (a b : Device) : Bool :=
  a.kind == b.kind && a.apiVersion == b.apiVersion && a.name == b.name &&
  a.namespace' == b.namespace' && amDeepEqual a.labels b.labels &&
  amDeepEqual a.annotations b.annotations && amDeepEqual a.spec b.spec

/-- The finalizer marker `ReconcilingDeviceLink`. -/
def ReconcilingDeviceLink : String := "edge.cattle.io/octopus-limb"

/-- `markDevice` of devicelink.go: stamps the adaptor node, adaptor name
and, only when the declared parameters are non-nil, the raw parameter
bytes onto the device annotations (a nil map is replaced by an empty
one). -/
def markDevice (link : DeviceLink) (deviceAnnotations : AMap String) : AMap String :=
  let deviceAdaptor := link.spec.adaptor
  let a1 := amInsert "edge.cattle.io/adaptor-node" deviceAdaptor.node deviceAnnotations
  let a2 := amInsert "edge.cattle.io/adaptor-name" deviceAdaptor.name a1
  match deviceAdaptor.parameters with
  | some raw => amInsert "edge.cattle.io/adaptor-parameters" raw a2
  | none => a2

/-- `compareAdaptorParameters` of devicelink.go: reports a difference only
when both parameter blobs are non-nil and their raw bytes differ
(`bytes.Compare(...) != 0`). -/
def compareAdaptorParameters (adaptor statusAdaptor : DeviceAdaptor) : Bool :=
  match adaptor.parameters, statusAdaptor.parameters with
  | some araw, some sraw => araw != sraw
  | _, _ => false

/-- `updateDevice` of devicelink.go: merges the rendered annotations,
labels and decoded spec into the target device and reports whether the
result differs (`reflect.DeepEqual`) from the original. -/
def updateDevice (from' : DeviceLink) (target : Device) : Except String (Bool × Device) :=
  let original := target
  let updatedAnnotations := markDevice from' target.annotations
  match jsoniterUnmarshal from'.spec.template.specRaw with
  | .error e => .error e
  | .ok updatedSpec =>
    let updatedLabels := StringMapCopyInto from'.spec.template.labels target.labels
    let target := { target with
                    labels := updatedLabels
                    annotations := updatedAnnotations
                    spec := updatedSpec }
    .ok (!(deepEqualDevice target original), target)

/-- `constructDevice` of devicelink.go: renders a fresh device from the
model reference and the template (the owner-reference stamping via
`ctrl.SetControllerReference` is a store-side collaborator concern and is
not part of the content model). -/
def constructDevice (from' : DeviceLink) : Except String Device :=
  let deviceModel := from'.status.model
  let deviceName := from'.name
  let deviceNamespace := from'.namespace'
  let deviceAnnotations := markDevice from' []
  match jsoniterUnmarshal from'.spec.template.specRaw with
  | .error e => .error e
  | .ok deviceSpec =>
    .ok { kind := deviceModel.kind
          apiVersion := deviceModel.apiVersion
          name := deviceName
          namespace' := deviceNamespace
          labels := StringMapCopy from'.spec.template.labels
          annotations := deviceAnnotations
          spec := deviceSpec }

/-- Outcome of fetching the link from the store. -/
inductive FetchLinkResult where
  | found
  | notFound
  | errorOther
deriving DecidableEq, Repr

/-- Outcome of fetching the device from the store; `activating` models
`object.IsActivating` on the fetched representation (modelled from the
spec: not-found and schema-mismatch are tolerated "as not active"). -/
inductive GetDeviceResult where
  | found (d : Device) (activating : Bool)
  | notFound
  | noMatch
  | errorOther
deriving DecidableEq, Repr

/-- Outcome of creating the device in the store. -/
inductive CreateDeviceResult where
  | ok
  | alreadyExists
  | noMatch
  | errorOther
deriving DecidableEq, Repr

/-- `err != nil` on the create outcome. -/
def createErrIsErr : CreateDeviceResult → Bool
  | .ok => false
  | _ => true

/-- `apierrs.IsAlreadyExists` on the create outcome. -/
def createErrIsAlreadyExists : CreateDeviceResult → Bool
  | .alreadyExists => true
  | _ => false

/-- `meta.IsNoMatchError` on the create outcome. -/
def createErrIsNoMatch : CreateDeviceResult → Bool
  | .noMatch => true
  | _ => false

/-- Outcome of `SuctionCup.Connect`: an error, or success with the
`overwrite` flag (true when an already-live connection was replaced). -/
inductive ConnectResult where
  | ok (overwrite : Bool)
  | error
deriving DecidableEq, Repr

/-- Per-pass oracle for every external collaborator call the pass may
make. -/
structure Env where
  fetchLink : FetchLinkResult
  existAdaptor : Bool
  disconnectExisted : Bool
  updateLinkOk : Bool
  updateStatusOk : Bool
  newInstanceOk : Bool
  getDevice : GetDeviceResult
  updateDeviceOk : Bool
  createDevice : CreateDeviceResult
  connect : ConnectResult
  sendOk : Bool
deriving DecidableEq, Repr

/-- Externally visible effects of one pass, in execution order.  The
`eval*Stage` markers record entry into a stage switch together with the
guarding condition value observed at that moment. -/
inductive Event where
  | evalAdaptorStage (modelExisted : ConditionStatus)
  | evalDeviceCreatedStage (adaptorExisted : ConditionStatus)
  | evalDeviceConnectedStage (deviceCreated : ConditionStatus)
  | disconnect
  | connect
  | send (d : Device)
  | updateLink (finalizers : List String)
  | updateLinkStatus (st : DeviceLinkStatus)
  | createDevice (d : Device)
  | updateDeviceRecord (d : Device)
  | emitEvent (etype reason msg : String)
  | decreaseConnections (adaptorName : String)
  | increaseConnections (adaptorName : String)
  | increaseConnectErrors (adaptorName : String)
  | increaseSendErrors (adaptorName : String)
deriving DecidableEq, Repr

/-- `ctrl.Result`. -/
structure CtrlResult where
  requeue : Bool
deriving DecidableEq, Repr

/-- The controller instance (`DeviceLinkReconciler`), reduced to the only
configuration the pass reads. -/
structure DeviceLinkReconciler where
  NodeName : String
deriving DecidableEq, Repr

/-- Value of a finished pass: result signal, effect trace, and the final
in-memory link. -/
abbrev PassOut := CtrlResult × List Event × DeviceLink

/-- Shared tail of most stage branches: issue `r.Status().Update` and
stop, signalling requeue exactly when the write fails. -/
def updateStatusAndReturn (env : Env) (evs : List Event) (link : DeviceLink) : PassOut :=
  let evs := evs ++ [.updateLinkStatus link.status]
  if !env.updateStatusOk then (⟨true⟩, evs, link) else (⟨false⟩, evs, link)

/-- The `SuctionCup.Disconnect` call followed by the conditional
connection-counter decrement. -/
def disconnectEvents (env : Env) (link : DeviceLink) : List Event :=
  [.disconnect] ++ (if env.disconnectExisted then [.decreaseConnections link.status.adaptorName] else [])

/-- Result of a stage that may fall through to the next stage. -/
inductive StageOutcome where
  | done (out : PassOut)
  | cont (evs : List Event) (link : DeviceLink)
deriving Repr

/-- Result of the DeviceCreated stage, which passes the device
representation along on fall-through. -/
inductive CreatedStageOutcome where
  | done (out : PassOut)
  | cont (evs : List Event) (link : DeviceLink) (device : Device)
deriving Repr

/-- The AdaptorExisted stage switch of `Reconcile` (devicelink.go lines
115-157). -/
def adaptorExistedStage (env : Env) (link : DeviceLink) : StageOutcome :=
  let ev0 : List Event := [.evalAdaptorStage (GetModelExistedStatus link.status)]
  match GetAdaptorExistedStatus link.status with
  | .conditionFalse =>
    if env.existAdaptor || link.status.adaptorName != link.spec.adaptor.name
        || compareAdaptorParameters link.spec.adaptor link.status.adaptor then
      let link := { link with status := ToCheckAdaptorExisted link.status }
      let evs := ev0 ++ [.updateLinkStatus link.status]
      if !env.updateStatusOk then .done (⟨true⟩, evs, link)
      else .done (⟨false⟩, evs, link)
    else .done (⟨false⟩, ev0, link)
  | .conditionTrue =>
    if !env.existAdaptor || link.status.adaptorName != link.spec.adaptor.name
        || compareAdaptorParameters link.spec.adaptor link.status.adaptor then
      let evs := ev0 ++ disconnectEvents env link
      let link := { link with status := ToCheckAdaptorExisted link.status }
      .done (updateStatusAndReturn env evs link)
    else .cont ev0 link
  | .conditionUnknown =>
    let link := { link with status :=
      if env.existAdaptor then SuccessOnAdaptorExisted link.status
      else FailOnAdaptorExisted link.status "the adaptor is not existed" }
    let link := { link with status :=
      { link.status with
        adaptorName := link.spec.adaptor.name
        adaptor := { link.status.adaptor with parameters := link.spec.adaptor.parameters } } }
    .done (updateStatusAndReturn env ev0 link)

/-- The DeviceCreated stage switch of `Reconcile` (devicelink.go lines
159-236), including the unreachable `IsNoMatchError` arm of the create
branch exactly as the source has it. -/
def deviceCreatedStage (env : Env) (link : DeviceLink) : CreatedStageOutcome :=
  let ev0 : List Event := [.evalDeviceCreatedStage (GetAdaptorExistedStatus link.status)]
  match GetDeviceCreatedStatus link.status with
  | .conditionFalse => .done (⟨false⟩, ev0, link)
  | .conditionTrue =>
    if !env.newInstanceOk then
      let link := { link with status := FailOnDeviceCreated link.status "unable to update device from template" }
      let evs := ev0 ++ [.emitEvent "Warning" "FailedCreated" "cannot update device from template: model error"]
      .done (updateStatusAndReturn env evs link)
    else
      match env.getDevice with
      | .errorOther => .done (⟨true⟩, ev0, link)
      | .notFound =>
        let link := { link with status := ToCheckDeviceCreated link.status }
        .done (updateStatusAndReturn env ev0 link)
      | .noMatch =>
        let link := { link with status := ToCheckDeviceCreated link.status }
        .done (updateStatusAndReturn env ev0 link)
      | .found device activating =>
        if !activating then
          let link := { link with status := ToCheckDeviceCreated link.status }
          .done (updateStatusAndReturn env ev0 link)
        else
          match updateDevice link device with
          | .error _ =>
            let link := { link with status := FailOnDeviceCreated link.status "unable to update device from template" }
            let evs := ev0 ++ [.emitEvent "Warning" "FailedCreated" "cannot update device from template: decode error"]
            .done (updateStatusAndReturn env evs link)
          | .ok (updated, device) =>
            if updated then
              let evs := ev0 ++ [.updateDeviceRecord device]
              if !env.updateDeviceOk then .done (⟨true⟩, evs, link)
              else .cont evs link device
            else .cont ev0 link device
  | .conditionUnknown =>
    match constructDevice link with
    | .error _ =>
      let link := { link with status := FailOnDeviceCreated link.status "unable to construct device from template" }
      let evs := ev0 ++ [.emitEvent "Warning" "FailedCreated" "cannot create device from template: decode error"]
      .done (updateStatusAndReturn env evs link)
    | .ok device =>
      let evs := ev0 ++ [.createDevice device]
      let err := env.createDevice
      if createErrIsErr err && !createErrIsAlreadyExists err then
        .done (⟨true⟩, evs, link)
      else
        if createErrIsNoMatch err then
          let link := { link with status := FailOnDeviceCreated link.status "unable to construct device from template" }
          let evs := evs ++ [.emitEvent "Warning" "FailedCreated" "cannot create device from template: the model is not existed"]
          .done (updateStatusAndReturn env evs link)
        else
          let link := { link with status := SuccessOnDeviceCreated link.status }
          let evs := evs ++ [.emitEvent "Normal" "Created" "device instance is created"]
          .done (updateStatusAndReturn env evs link)

/-- The DeviceConnected stage switch of `Reconcile` (devicelink.go lines
238-282). -/
def deviceConnectedStage (env : Env) (link : DeviceLink) (device : Device) : PassOut :=
  let ev0 : List Event := [.evalDeviceConnectedStage (GetDeviceCreatedStatus link.status)]
  match GetDeviceConnectedStatus link.status with
  | .conditionFalse => (⟨false⟩, ev0, link)
  | .conditionTrue =>
    let evs := ev0 ++ [.send device]
    if env.sendOk then (⟨false⟩, evs, link)
    else
      let evs := evs ++ [.increaseSendErrors link.status.adaptorName]
      let link := { link with status := FailOnDeviceConnected link.status "cannot send data to adaptor" }
      let evs := evs ++ [.emitEvent "Warning" "FailedSent" "cannot send data to adaptor"]
      updateStatusAndReturn env evs link
  | .conditionUnknown =>
    let evs := ev0 ++ [.connect]
    match env.connect with
    | .error =>
      let evs := evs ++ [.increaseConnectErrors link.status.adaptorName]
      let link := { link with status := FailOnDeviceConnected link.status "unable to connect to adaptor" }
      let evs := evs ++ [.emitEvent "Warning" "FailedConnected" "cannot connect to adaptor"]
      updateStatusAndReturn env evs link
    | .ok overwrite =>
      let evs := evs ++ (if !overwrite then [.increaseConnections link.status.adaptorName] else [])
      let link := { link with status := SuccessOnDeviceConnected link.status }
      let evs := evs ++ [.emitEvent "Normal" "Connected" "connected to adaptor"]
      updateStatusAndReturn env evs link

/-- `Reconcile` of devicelink.go: one synchronous pass over a link. -/
def Reconcile (r : DeviceLinkReconciler) (env : Env) (link0 : DeviceLink) : PassOut :=
  match env.fetchLink with
  | .errorOther => (⟨true⟩, [], link0)
  | .notFound => (⟨false⟩, [], link0)
  | .found =>
    let link := link0
    if link.status.nodeName != r.NodeName then
      (⟨false⟩, disconnectEvents env link, link)
    else if GetModelExistedStatus link.status != .conditionTrue then
      (⟨false⟩, disconnectEvents env link, link)
    else if IsDeleted link then
      if !StringSliceContain link.finalizers ReconcilingDeviceLink then
        (⟨false⟩, [], link)
      else
        let evs := disconnectEvents env link
        let link := { link with finalizers := StringSliceRemove link.finalizers ReconcilingDeviceLink }
        let evs := evs ++ [.updateLink link.finalizers]
        if !env.updateLinkOk then (⟨true⟩, evs, link) else (⟨false⟩, evs, link)
    else if !StringSliceContain link.finalizers ReconcilingDeviceLink then
      let link := { link with finalizers := link.finalizers ++ [ReconcilingDeviceLink] }
      let evs := [Event.updateLink link.finalizers]
      if !env.updateLinkOk then (⟨true⟩, evs, link) else (⟨false⟩, evs, link)
    else
      match adaptorExistedStage env link with
      | .done out => out
      | .cont evs1 link =>
        match deviceCreatedStage env link with
        | .done (res, evs2, link) => (res, evs1 ++ evs2, link)
        | .cont evs2 link device =>
          let out3 := deviceConnectedStage env link device
          (out3.1, evs1 ++ evs2 ++ out3.2.1, out3.2.2)

/-- Writes to the link record (finalizer updates and status updates). -/
def isLinkWriteEvent : Event → Bool
  | .updateLink _ => true
  | .updateLinkStatus _ => true
  | _ => false

/-- Writes to the device record (create and update). -/
def isDeviceWriteEvent : Event → Bool
  | .createDevice _ => true
  | .updateDeviceRecord _ => true
  | _ => false

/-- Any write to the resource store. -/
def isStoreWriteEvent (e : Event) : Bool := isLinkWriteEvent e || isDeviceWriteEvent e

/-- The Disconnect calls in a trace. -/
def isDisconnectEvent : Event → Bool
  | .disconnect => true
  | _ => false

/-- Stage-entry markers of the DeviceCreated stage. -/
def isEvalDeviceCreatedStage : Event → Bool
  | .evalDeviceCreatedStage _ => true
  | _ => false

/-- Stage-entry markers of the DeviceConnected stage. -/
def isEvalDeviceConnectedStage : Event → Bool
  | .evalDeviceConnectedStage _ => true
  | _ => false

/-- Recorder events (`r.Eventf`) in a trace. -/
def isEmitEvent : Event → Bool
  | .emitEvent _ _ _ => true
  | _ => false

/-- Number of trace events satisfying a predicate. -/
def countEvents (p : Event → Bool) (tr : List Event) : Nat := (tr.filter p).length

/-! ### Concrete fixtures used by witnesses and counterexamples -/

/-- A controller instance bound to node `edge-node`. -/
def rcW : DeviceLinkReconciler := ⟨"edge-node"⟩

/-- A declared adaptor with parameters `a=1`. -/
def adaptorW : DeviceAdaptor := ⟨"adaptors.edge.cattle.io/dummy", "edge-node", some "a=1"⟩

/-- A model reference. -/
def modelW : TypeMeta := ⟨"DummyDevice", "devices.edge.cattle.io/v1alpha1"⟩

/-- A declared template with labels `{d:1}` and spec `{p:10}`. -/
def templateW : DeviceTemplate := ⟨[("d", "1")], .wellFormed [("p", 10)]⟩

/-- Status of a link that has fully progressed up to DeviceConnected
evaluation: all earlier conditions True, DeviceConnected Unknown. -/
def statusSteadyW : DeviceLinkStatus :=
  { nodeName := "edge-node", adaptorName := "adaptors.edge.cattle.io/dummy",
    adaptor := ⟨"", "", some "a=1"⟩, model := modelW,
    modelExisted := .conditionTrue, adaptorExisted := .conditionTrue,
    deviceCreated := .conditionTrue, deviceConnected := .conditionUnknown }

/-- A link in the steady state described by `statusSteadyW`. -/
def linkSteadyW : DeviceLink :=
  { name := "dl", namespace' := "default", finalizers := [ReconcilingDeviceLink],
    deleted := false, spec := ⟨adaptorW, modelW, templateW⟩, status := statusSteadyW }

/-- A stored device representation whose labels have drifted from the
declared template (empty labels), forcing a device update. -/
def deviceStaleW : Device :=
  { kind := "DummyDevice", apiVersion := "devices.edge.cattle.io/v1alpha1",
    name := "dl", namespace' := "default", labels := [], annotations := [], spec := [] }

/-- An environment in which every collaborator call succeeds and the
declared adaptor exists. -/
def envOkW : Env :=
  { fetchLink := .found, existAdaptor := true, disconnectExisted := false,
    updateLinkOk := true, updateStatusOk := true, newInstanceOk := true,
    getDevice := .found deviceStaleW true, updateDeviceOk := true,
    createDevice := .ok, connect := .ok false, sendOk := true }

/-- A fresh link: AdaptorExisted and DeviceCreated still Unknown, no
adaptor identity recorded in status yet. -/
def linkFreshW : DeviceLink :=
  { linkSteadyW with status :=
    { statusSteadyW with adaptorExisted := .conditionUnknown,
                         deviceCreated := .conditionUnknown,
                         adaptorName := "", adaptor := ⟨"", "", none⟩ } }

/-- A link whose AdaptorExisted is True but whose device has not been
created yet (DeviceCreated Unknown). -/
def linkCreateW : DeviceLink :=
  { linkSteadyW with status := { statusSteadyW with deviceCreated := .conditionUnknown } }

/-- Environment in which the store reports a schema mismatch ("no matching
schema") on device create. -/
def envNoMatchW : Env := { envOkW with createDevice := .noMatch }

/-- Environment in which a live connection exists (`Disconnect` reports
that a connection existed). -/
def envDiscW : Env := { envOkW with disconnectExisted := true }

/-- A deleted link without the finalizer marker, bound to a different
node than `rcW`. -/
def linkDeletedOtherNodeW : DeviceLink :=
  { linkSteadyW with
    deleted := true
    finalizers := []
    status := { statusSteadyW with nodeName := "another-node" } }

/-- A link whose AdaptorExisted is True while the declared adaptor name
differs from the recorded one, bound to a different node than `rcW`. -/
def linkSwapOtherNodeW : DeviceLink :=
  { linkSteadyW with
    spec := { linkSteadyW.spec with adaptor := { adaptorW with name := "adaptors.edge.cattle.io/other" } },
    status := { statusSteadyW with nodeName := "another-node" } }

/-- A link whose AdaptorExisted is True while the declared adaptor name
differs from the recorded one, on the owning node. -/
def linkSwapW : DeviceLink :=
  { linkSteadyW with
    spec := { linkSteadyW.spec with adaptor := { adaptorW with name := "adaptors.edge.cattle.io/other" } } }

/-- A deleted link carrying the finalizer marker, on the owning node. -/
def linkDeletedW : DeviceLink := { linkSteadyW with deleted := true }

/-- The device produced by rendering `linkSteadyW` onto `deviceStaleW`. -/
def deviceUpdatedW : Device :=
  { kind := "DummyDevice", apiVersion := "devices.edge.cattle.io/v1alpha1",
    name := "dl", namespace' := "default", labels := [("d", "1")],
    annotations := [("edge.cattle.io/adaptor-node", "edge-node"),
                    ("edge.cattle.io/adaptor-name", "adaptors.edge.cattle.io/dummy"),
                    ("edge.cattle.io/adaptor-parameters", "a=1")],
    spec := [("p", 10)] }

/-- A link whose declared adaptor parameters are absent (nil pointer). -/
def linkNoParamsW : DeviceLink :=
  { linkSteadyW with
    spec := { linkSteadyW.spec with adaptor := { adaptorW with parameters := none } } }

/-- Device annotations carrying a stale parameter fingerprint. -/
def staleAnnotationsW : AMap String := [("edge.cattle.io/adaptor-parameters", "a=1")]

/-! ### Basic lemmas about the map model and the trace counters -/

@[simp]
theorem countEvents_nil (p : Event → Bool) : countEvents p [] = 0 := rfl

@[simp]
theorem countEvents_cons (p : Event → Bool) (e : Event) (tr : List Event) :
    countEvents p (e :: tr) = (if p e then 1 else 0) + countEvents p tr := by
  cases hpe : p e <;> simp [countEvents, List.filter_cons, hpe, Nat.add_comm]

@[simp]
theorem countEvents_append (p : Event → Bool) (a b : List Event) :
    countEvents p (a ++ b) = countEvents p a + countEvents p b := by
  simp [countEvents, List.filter_append]

theorem updateStatusAndReturn_eq (env : Env) (evs : List Event) (link : DeviceLink) :
    updateStatusAndReturn env evs link
      = (⟨!env.updateStatusOk⟩, evs ++ [.updateLinkStatus link.status], link) := by
  unfold updateStatusAndReturn
  cases env.updateStatusOk <;> simp

theorem amLookup_amInsert_self {α : Type} (k : String) (v : α) (m : AMap α) :
    amLookup k (amInsert k v m) = some v := by
  induction m with
  | nil => simp [amInsert, amLookup]
  | cons kv m ih =>
    by_cases hk : kv.1 = k
    · simp [amInsert, hk, amLookup]
    · simp [amInsert, hk, amLookup, ih]

theorem amLookup_amInsert_ne {α : Type} (k k' : String) (v : α) (m : AMap α)
    (h : k' ≠ k) : amLookup k (amInsert k' v m) = amLookup k m := by
  induction m with
  | nil => simp [amInsert, amLookup, h]
  | cons kv m ih =>
    obtain ⟨k0, v0⟩ := kv
    by_cases hk : k0 = k'
    · subst hk
      simp [amInsert, amLookup, h]
    · by_cases hk2 : k0 = k <;> simp [amInsert, amLookup, hk, hk2, ih, Ne.symm h]

theorem amInsert_of_lookup_eq {α : Type} (k : String) (v : α) (m : AMap α)
    (h : amLookup k m = some v) : amInsert k v m = m := by
  induction m with
  | nil => simp [amLookup] at h
  | cons kv m ih =>
    obtain ⟨k0, v0⟩ := kv
    by_cases hk : k0 = k
    · simp [amLookup, hk] at h
      simp [amInsert, hk, h]
    · simp [amLookup, hk] at h
      simp [amInsert, hk, ih h]

theorem amLookup_eq_none_of_not_mem {α : Type} (k : String) (m : AMap α)
    (h : k ∉ amKeys m) : amLookup k m = none := by
  induction m with
  | nil => rfl
  | cons kv m ih =>
    obtain ⟨k0, v0⟩ := kv
    simp only [amKeys, List.map_cons, List.mem_cons, not_or] at h
    simp only [amLookup]
    rw [if_neg (Ne.symm h.1)]
    exact ih h.2

theorem amDeepEqual_iff {α : Type} [DecidableEq α] (a b : AMap α) :
    amDeepEqual a b = true ↔ ∀ k, amLookup k a = amLookup k b := by
  constructor
  · intro h k
    by_cases hk : k ∈ amKeys a ++ amKeys b
    · have := (List.all_eq_true.mp h) k hk
      simpa using this
    · simp only [List.mem_append] at hk
      push_neg at hk
      rw [amLookup_eq_none_of_not_mem k a hk.1, amLookup_eq_none_of_not_mem k b hk.2]
  · intro h
    unfold amDeepEqual
    rw [List.all_eq_true]
    intro k _
    simp [h k]

theorem amDeepEqual_refl {α : Type} [DecidableEq α] (a : AMap α) :
    amDeepEqual a a = true :=
  (amDeepEqual_iff a a).mpr fun _ => rfl

theorem amLookup_append {α : Type} (k : String) (a b : AMap α) :
    amLookup k (a ++ b)
      = match amLookup k a with
        | some v => some v
        | none => amLookup k b := by
  induction a with
  | nil => simp [amLookup]
  | cons kv a ih =>
    obtain ⟨k0, v0⟩ := kv
    by_cases hk : k0 = k <;> simp [amLookup, hk, ih]

theorem amLookup_copyInto (src dst : AMap String) (k : String) :
    amLookup k (StringMapCopyInto src dst)
      = match amLookup k src.reverse with
        | some v => some v
        | none => amLookup k dst := by
  induction src generalizing dst with
  | nil => simp [StringMapCopyInto, amLookup]
  | cons kv src ih =>
    obtain ⟨k0, v0⟩ := kv
    simp only [StringMapCopyInto, List.foldl_cons] at ih ⊢
    rw [ih]
    rw [List.reverse_cons, amLookup_append]
    by_cases hk : k0 = k
    · subst hk
      cases hsrc : amLookup k0 src.reverse <;>
        simp [amLookup, amLookup_amInsert_self, hsrc]
    · cases hsrc : amLookup k src.reverse <;>
        simp [amLookup, hk, amLookup_amInsert_ne k k0 v0 dst hk, hsrc]

theorem amLookup_copyInto_idem (src m : AMap String) (k : String) :
    amLookup k (StringMapCopyInto src (StringMapCopyInto src m))
      = amLookup k (StringMapCopyInto src m) := by
  rw [amLookup_copyInto, amLookup_copyInto]
  cases amLookup k src.reverse <;> simp

theorem amLookup_markDevice_node (link : DeviceLink) (m : AMap String) :
    amLookup "edge.cattle.io/adaptor-node" (markDevice link m)
      = some link.spec.adaptor.node := by
  cases hp : link.spec.adaptor.parameters with
  | none =>
    simp only [markDevice, hp]
    rw [amLookup_amInsert_ne _ _ _ _ (by decide), amLookup_amInsert_self]
  | some raw =>
    simp only [markDevice, hp]
    rw [amLookup_amInsert_ne _ _ _ _ (by decide),
        amLookup_amInsert_ne _ _ _ _ (by decide), amLookup_amInsert_self]

theorem amLookup_markDevice_name (link : DeviceLink) (m : AMap String) :
    amLookup "edge.cattle.io/adaptor-name" (markDevice link m)
      = some link.spec.adaptor.name := by
  cases hp : link.spec.adaptor.parameters with
  | none =>
    simp only [markDevice, hp]
    rw [amLookup_amInsert_self]
  | some raw =>
    simp only [markDevice, hp]
    rw [amLookup_amInsert_ne _ _ _ _ (by decide), amLookup_amInsert_self]

theorem amLookup_markDevice_params_some (link : DeviceLink) (m : AMap String)
    (raw : String) (h : link.spec.adaptor.parameters = some raw) :
    amLookup "edge.cattle.io/adaptor-parameters" (markDevice link m) = some raw := by
  simp only [markDevice, h]
  rw [amLookup_amInsert_self]

theorem markDevice_of_marked (link : DeviceLink) (M : AMap String)
    (hnode : amLookup "edge.cattle.io/adaptor-node" M = some link.spec.adaptor.node)
    (hname : amLookup "edge.cattle.io/adaptor-name" M = some link.spec.adaptor.name)
    (hparams : ∀ raw, link.spec.adaptor.parameters = some raw →
        amLookup "edge.cattle.io/adaptor-parameters" M = some raw) :
    markDevice link M = M := by
  cases hp : link.spec.adaptor.parameters with
  | none =>
    simp only [markDevice, hp]
    rw [amInsert_of_lookup_eq _ _ _ hnode, amInsert_of_lookup_eq _ _ _ hname]
  | some raw =>
    simp only [markDevice, hp]
    rw [amInsert_of_lookup_eq _ _ _ hnode, amInsert_of_lookup_eq _ _ _ hname,
        amInsert_of_lookup_eq _ _ _ (hparams raw hp)]

theorem markDevice_idem (link : DeviceLink) (m : AMap String) :
    markDevice link (markDevice link m) = markDevice link m :=
  markDevice_of_marked link (markDevice link m)
    (amLookup_markDevice_node link m)
    (amLookup_markDevice_name link m)
    (fun raw h => amLookup_markDevice_params_some link m raw h)

/-! ### Claim C3: byte-exact parameter comparison -/

/-- C3: the parameter-change predicate reports a difference exactly when
both blobs are non-nil and their raw bytes differ; when either side is
absent it reports no difference; concretely, `a=1` vs `a=1` is no
difference and `a=1` vs `a=2` is a difference. -/
theorem compareAdaptorParameters_iff (a s : DeviceAdaptor) :
    (compareAdaptorParameters a s = true ↔
      ∃ araw sraw, a.parameters = some araw ∧ s.parameters = some sraw ∧ araw ≠ sraw) ∧
    compareAdaptorParameters ⟨"x", "n", some "a=1"⟩ ⟨"y", "m", some "a=1"⟩ = false ∧
    compareAdaptorParameters ⟨"x", "n", some "a=1"⟩ ⟨"y", "m", some "a=2"⟩ = true := by
  refine ⟨?_, by decide, by decide⟩
  unfold compareAdaptorParameters
  cases ha : a.parameters with
  | none => simp
  | some araw =>
    cases hs : s.parameters with
    | none => simp
    | some sraw => simp [bne_iff_ne]

/-! ### Claim C9: frame property of the device-update transform -/

/-- C9: on success, `updateDevice` rewrites only labels, annotations and
spec; kind, apiVersion, name and namespace of the device are those of its
input. -/
theorem updateDevice_frame (link : DeviceLink) (d : Device) (u : Bool) (d' : Device)
    (h : updateDevice link d = .ok (u, d')) :
    d'.kind = d.kind ∧ d'.apiVersion = d.apiVersion ∧ d'.name = d.name ∧
    d'.namespace' = d.namespace' := by
  unfold updateDevice at h
  cases hj : jsoniterUnmarshal link.spec.template.specRaw with
  | error e =>
    rw [hj] at h
    exact absurd h (by simp)
  | ok sm =>
    rw [hj] at h
    simp only [Except.ok.injEq, Prod.mk.injEq] at h
    obtain ⟨hu, hd⟩ := h
    subst hd
    exact ⟨rfl, rfl, rfl, rfl⟩

/-- Witness for C9 at a concrete link and device. -/
theorem updateDevice_frame_witness :
    deviceUpdatedW.kind = deviceStaleW.kind ∧
    deviceUpdatedW.apiVersion = deviceStaleW.apiVersion ∧
    deviceUpdatedW.name = deviceStaleW.name ∧
    deviceUpdatedW.namespace' = deviceStaleW.namespace' :=
  updateDevice_frame linkSteadyW deviceStaleW true deviceUpdatedW rfl

/-! ### Claim C10: absent parameters never clear the fingerprint -/

/-- C10: with nil declared parameters, `markDevice` stamps the
adaptor-node and adaptor-name keys but leaves a pre-existing
adaptor-parameters annotation untouched, so the stale fingerprint
survives a present-to-absent parameter transition. -/
theorem markDevice_keeps_stale_parameters (link : DeviceLink) (m : AMap String)
    (h : link.spec.adaptor.parameters = none) :
    amLookup "edge.cattle.io/adaptor-parameters" (markDevice link m)
      = amLookup "edge.cattle.io/adaptor-parameters" m ∧
    amLookup "edge.cattle.io/adaptor-node" (markDevice link m)
      = some link.spec.adaptor.node ∧
    amLookup "edge.cattle.io/adaptor-name" (markDevice link m)
      = some link.spec.adaptor.name := by
  refine ⟨?_, amLookup_markDevice_node link m, amLookup_markDevice_name link m⟩
  simp only [markDevice, h]
  rw [amLookup_amInsert_ne _ _ _ _ (by decide), amLookup_amInsert_ne _ _ _ _ (by decide)]

/-- Witness for C10: a device annotated with fingerprint `a=1` keeps it
when the link declares no parameters. -/
theorem markDevice_keeps_stale_parameters_witness :
    amLookup "edge.cattle.io/adaptor-parameters" (markDevice linkNoParamsW staleAnnotationsW)
      = amLookup "edge.cattle.io/adaptor-parameters" staleAnnotationsW ∧
    amLookup "edge.cattle.io/adaptor-node" (markDevice linkNoParamsW staleAnnotationsW)
      = some linkNoParamsW.spec.adaptor.node ∧
    amLookup "edge.cattle.io/adaptor-name" (markDevice linkNoParamsW staleAnnotationsW)
      = some linkNoParamsW.spec.adaptor.name :=
  markDevice_keeps_stale_parameters linkNoParamsW staleAnnotationsW rfl

/-! ### Claim C7: idempotence of the device-update transform -/

/-- C7: applying `updateDevice` to its own output with an unchanged
template yields `updated = false` (the merged representation is
`reflect.DeepEqual` to its input), so the second application issues no
store write. -/
theorem updateDevice_idempotent (link : DeviceLink) (d d1 : Device) (u : Bool)
    (h : updateDevice link d = .ok (u, d1)) :
    ∃ d2, updateDevice link d1 = .ok (false, d2) := by
  unfold updateDevice at h ⊢
  split at h
  · simp at h
  · rename_i sm heq
    simp only [Except.ok.injEq, Prod.mk.injEq] at h ⊢
    obtain ⟨hu, hd⟩ := h
    subst hd
    refine ⟨_, ?_, rfl⟩
    have hlab : ∀ k, amLookup k (StringMapCopyInto link.spec.template.labels
        (StringMapCopyInto link.spec.template.labels d.labels))
        = amLookup k (StringMapCopyInto link.spec.template.labels d.labels) :=
      fun k => amLookup_copyInto_idem _ _ k
    have hann := markDevice_idem link d.annotations
    simp only [deepEqualDevice]
    rw [hann]
    simp [amDeepEqual_refl, (amDeepEqual_iff _ _).mpr hlab]

/-- Witness for C7 at a concrete link and device. -/
theorem updateDevice_idempotent_witness :
    ∃ d2, updateDevice linkSteadyW deviceUpdatedW = .ok (false, d2) :=
  updateDevice_idempotent linkSteadyW deviceStaleW deviceUpdatedW true rfl

/-! ### Per-stage lemmas about the pass trace -/

@[simp]
theorem countEvents_ite (p : Event → Bool) (c : Prop) [Decidable c] (a b : List Event) :
    countEvents p (if c then a else b) = if c then countEvents p a else countEvents p b :=
  apply_ite _ _ _ _

theorem adaptorExistedStage_facts (env : Env) (link : DeviceLink) :
    (match adaptorExistedStage env link with
     | .done (_, evs, _) =>
        countEvents isLinkWriteEvent evs ≤ 1 ∧ countEvents isDeviceWriteEvent evs = 0 ∧
        (∀ m, Event.evalAdaptorStage m ∈ evs → m = GetModelExistedStatus link.status) ∧
        (∀ c, Event.evalDeviceCreatedStage c ∉ evs) ∧
        (∀ c, Event.evalDeviceConnectedStage c ∉ evs)
     | .cont evs link' =>
        evs = [Event.evalAdaptorStage (GetModelExistedStatus link.status)] ∧ link' = link ∧
        GetAdaptorExistedStatus link.status = ConditionStatus.conditionTrue) := by
  cases hA : GetAdaptorExistedStatus link.status <;>
  cases he : env.existAdaptor <;>
  cases hn : link.status.adaptorName != link.spec.adaptor.name <;>
  cases hp : compareAdaptorParameters link.spec.adaptor link.status.adaptor <;>
  cases hs : env.updateStatusOk <;>
  cases hd : env.disconnectExisted <;>
    simp [adaptorExistedStage, hA, he, hn, hp, hs, hd, updateStatusAndReturn_eq,
      disconnectEvents, countEvents, List.filter_append, List.filter,
      isLinkWriteEvent, isDeviceWriteEvent]

theorem deviceCreatedStage_facts (env : Env) (link : DeviceLink) :
    (match deviceCreatedStage env link with
     | .done (_, evs, _) =>
        countEvents isLinkWriteEvent evs ≤ 1 ∧ countEvents isDeviceWriteEvent evs ≤ 1 ∧
        (∀ m, Event.evalAdaptorStage m ∉ evs) ∧
        (∀ c, Event.evalDeviceConnectedStage c ∉ evs)
     | .cont evs link' _ =>
        link' = link ∧ GetDeviceCreatedStatus link.status = ConditionStatus.conditionTrue ∧
        countEvents isLinkWriteEvent evs = 0 ∧ countEvents isDeviceWriteEvent evs ≤ 1 ∧
        (∀ m, Event.evalAdaptorStage m ∉ evs) ∧
        (∀ c, Event.evalDeviceConnectedStage c ∉ evs)) := by
  cases hC : GetDeviceCreatedStatus link.status
  case conditionFalse =>
    simp [deviceCreatedStage, hC, countEvents, List.filter, isLinkWriteEvent, isDeviceWriteEvent]
  case conditionTrue =>
    cases hni : env.newInstanceOk
    case false =>
      cases hs : env.updateStatusOk <;>
        simp [deviceCreatedStage, hC, hni, hs, updateStatusAndReturn_eq, countEvents,
          List.filter_append, List.filter, isLinkWriteEvent, isDeviceWriteEvent]
    case true =>
      cases hg : env.getDevice
      case errorOther =>
        simp [deviceCreatedStage, hC, hni, hg, countEvents, List.filter,
          isLinkWriteEvent, isDeviceWriteEvent]
      case notFound =>
        cases hs : env.updateStatusOk <;>
          simp [deviceCreatedStage, hC, hni, hg, hs, updateStatusAndReturn_eq, countEvents,
            List.filter_append, List.filter, isLinkWriteEvent, isDeviceWriteEvent]
      case noMatch =>
        cases hs : env.updateStatusOk <;>
          simp [deviceCreatedStage, hC, hni, hg, hs, updateStatusAndReturn_eq, countEvents,
            List.filter_append, List.filter, isLinkWriteEvent, isDeviceWriteEvent]
      case found d act =>
        cases act
        case false =>
          cases hs : env.updateStatusOk <;>
            simp [deviceCreatedStage, hC, hni, hg, hs, updateStatusAndReturn_eq, countEvents,
              List.filter_append, List.filter, isLinkWriteEvent, isDeviceWriteEvent]
        case true =>
          cases hu : updateDevice link d
          case error e =>
            cases hs : env.updateStatusOk <;>
              simp [deviceCreatedStage, hC, hni, hg, hu, hs, updateStatusAndReturn_eq,
                countEvents, List.filter_append, List.filter, isLinkWriteEvent, isDeviceWriteEvent]
          case ok pr =>
            obtain ⟨upd, d2⟩ := pr
            cases upd
            case false =>
              simp [deviceCreatedStage, hC, hni, hg, hu, countEvents, List.filter,
                isLinkWriteEvent, isDeviceWriteEvent]
            case true =>
              cases hud : env.updateDeviceOk <;>
                simp [deviceCreatedStage, hC, hni, hg, hu, hud, countEvents,
                  List.filter_append, List.filter, isLinkWriteEvent, isDeviceWriteEvent]
  case conditionUnknown =>
    cases hcd : constructDevice link
    case error e =>
      cases hs : env.updateStatusOk <;>
        simp [deviceCreatedStage, hC, hcd, hs, updateStatusAndReturn_eq, countEvents,
          List.filter_append, List.filter, isLinkWriteEvent, isDeviceWriteEvent]
    case ok d =>
      cases hcr : env.createDevice <;> cases hs : env.updateStatusOk <;>
        simp [deviceCreatedStage, hC, hcd, hcr, hs, updateStatusAndReturn_eq,
          createErrIsErr, createErrIsAlreadyExists, createErrIsNoMatch, countEvents,
          List.filter_append, List.filter, isLinkWriteEvent, isDeviceWriteEvent]

theorem deviceConnectedStage_facts (env : Env) (link : DeviceLink) (device : Device) :
    countEvents isLinkWriteEvent (deviceConnectedStage env link device).2.1 ≤ 1 ∧
    countEvents isDeviceWriteEvent (deviceConnectedStage env link device).2.1 = 0 ∧
    (∀ m, Event.evalAdaptorStage m ∉ (deviceConnectedStage env link device).2.1) ∧
    (∀ c, Event.evalDeviceConnectedStage c ∈ (deviceConnectedStage env link device).2.1 →
        c = GetDeviceCreatedStatus link.status) := by
  cases hDC : GetDeviceConnectedStatus link.status
  case conditionFalse =>
    simp [deviceConnectedStage, hDC, countEvents, List.filter, isLinkWriteEvent, isDeviceWriteEvent]
  case conditionTrue =>
    cases hsn : env.sendOk <;> cases hs : env.updateStatusOk <;>
      simp [deviceConnectedStage, hDC, hsn, hs, updateStatusAndReturn_eq, countEvents,
        List.filter_append, List.filter, isLinkWriteEvent, isDeviceWriteEvent]
  case conditionUnknown =>
    cases hcn : env.connect
    case error =>
      cases hs : env.updateStatusOk <;>
        simp [deviceConnectedStage, hDC, hcn, hs, updateStatusAndReturn_eq, countEvents,
          List.filter_append, List.filter, isLinkWriteEvent, isDeviceWriteEvent]
    case ok ov =>
      cases ov <;> cases hs : env.updateStatusOk <;>
        simp [deviceConnectedStage, hDC, hcn, hs, updateStatusAndReturn_eq, countEvents,
          List.filter_append, List.filter, isLinkWriteEvent, isDeviceWriteEvent]

/-! ### Claim C1: write budget of one pass -/

/-- Counterexample to C1 as stated: a steady-state pass (AdaptorExisted
True and unchanged, DeviceCreated True, device drifted, DeviceConnected
Unknown) updates the device record and then also writes the link status
in the DeviceConnected stage: two store writes in a single pass. -/
theorem reconcile_two_writes_in_one_pass :
    countEvents isStoreWriteEvent (Reconcile rcW envOkW linkSteadyW).2.1 = 2 ∧
    countEvents isDeviceWriteEvent (Reconcile rcW envOkW linkSteadyW).2.1 = 1 ∧
    countEvents isLinkWriteEvent (Reconcile rcW envOkW linkSteadyW).2.1 = 1 := by
  decide

/-- C1 amended: every pass performs at most one write to the link record
(finalizer or status update) and at most one write to the device record
(create or update); the two can co-occur in one pass, so the total is at
most two. -/
theorem reconcile_write_bounds (r : DeviceLinkReconciler) (env : Env) (link : DeviceLink) :
    countEvents isLinkWriteEvent (Reconcile r env link).2.1 ≤ 1 ∧
    countEvents isDeviceWriteEvent (Reconcile r env link).2.1 ≤ 1 := by
  cases hf : env.fetchLink
  case errorOther => simp [Reconcile, hf, countEvents]
  case notFound => simp [Reconcile, hf, countEvents]
  case found =>
    by_cases h1 : (link.status.nodeName != r.NodeName) = true
    · cases hd : env.disconnectExisted <;>
        simp [Reconcile, hf, h1, hd, disconnectEvents, countEvents, List.filter,
          isLinkWriteEvent, isDeviceWriteEvent]
    · by_cases h2 : (GetModelExistedStatus link.status != ConditionStatus.conditionTrue) = true
      · cases hd : env.disconnectExisted <;>
          simp [Reconcile, hf, h1, h2, hd, disconnectEvents, countEvents, List.filter,
            isLinkWriteEvent, isDeviceWriteEvent]
      · by_cases h3 : IsDeleted link = true
        · by_cases h4 : (!StringSliceContain link.finalizers ReconcilingDeviceLink) = true
          · simp [Reconcile, hf, h1, h2, h3, h4, countEvents]
          · cases hd : env.disconnectExisted <;> cases hul : env.updateLinkOk <;>
              simp [Reconcile, hf, h1, h2, h3, h4, hd, hul, disconnectEvents, countEvents,
                List.filter_append, List.filter, isLinkWriteEvent, isDeviceWriteEvent]
        · by_cases h5 : (!StringSliceContain link.finalizers ReconcilingDeviceLink) = true
          · cases hul : env.updateLinkOk <;>
              simp [Reconcile, hf, h1, h2, h3, h5, hul, countEvents, List.filter,
                isLinkWriteEvent, isDeviceWriteEvent]
          · have hA := adaptorExistedStage_facts env link
            cases hAc : adaptorExistedStage env link with
            | done out =>
              obtain ⟨res1, evs1, link1⟩ := out
              rw [hAc] at hA
              obtain ⟨ha1, ha2, -⟩ := hA
              simp [Reconcile, hf, h1, h2, h3, h5, hAc]
              exact ⟨ha1, by omega⟩
            | cont evs1 link1 =>
              rw [hAc] at hA
              obtain ⟨hevs1, hlink1, hTrue⟩ := hA
              subst hevs1
              have hB := deviceCreatedStage_facts env link1
              cases hBc : deviceCreatedStage env link1 with
              | done out =>
                obtain ⟨res2, evs2, link2⟩ := out
                rw [hBc] at hB
                obtain ⟨hb1, hb2, -⟩ := hB
                simp [Reconcile, hf, h1, h2, h3, h5, hAc, hBc,
                  isLinkWriteEvent, isDeviceWriteEvent]
                omega
              | cont evs2 link2 device =>
                rw [hBc] at hB
                obtain ⟨hlink2, hCreatedTrue, hb1, hb2, -⟩ := hB
                have hCn := deviceConnectedStage_facts env link2 device
                obtain ⟨hc1, hc2, -⟩ := hCn
                simp [Reconcile, hf, h1, h2, h3, h5, hAc, hBc,
                  isLinkWriteEvent, isDeviceWriteEvent]
                omega

/-! ### Claim C2: stage ordering guarded by earlier conditions -/

/-- C2: in every pass, the AdaptorExisted stage is only ever entered with
ModelExisted observed True, and the DeviceConnected stage is only ever
entered with DeviceCreated observed True (the stage-entry trace markers
record the guarding condition at evaluation time). -/
theorem reconcile_stage_ordering (r : DeviceLinkReconciler) (env : Env) (link : DeviceLink) :
    (∀ m, Event.evalAdaptorStage m ∈ (Reconcile r env link).2.1 →
        m = ConditionStatus.conditionTrue) ∧
    (∀ c, Event.evalDeviceConnectedStage c ∈ (Reconcile r env link).2.1 →
        c = ConditionStatus.conditionTrue) := by
  cases hf : env.fetchLink
  case errorOther => simp [Reconcile, hf]
  case notFound => simp [Reconcile, hf]
  case found =>
    by_cases h1 : (link.status.nodeName != r.NodeName) = true
    · cases hd : env.disconnectExisted <;>
        simp [Reconcile, hf, h1, hd, disconnectEvents]
    · by_cases h2 : (GetModelExistedStatus link.status != ConditionStatus.conditionTrue) = true
      · cases hd : env.disconnectExisted <;>
          simp [Reconcile, hf, h1, h2, hd, disconnectEvents]
      · replace h2 : GetModelExistedStatus link.status = ConditionStatus.conditionTrue := by
          simpa using h2
        by_cases h3 : IsDeleted link = true
        · by_cases h4 : (!StringSliceContain link.finalizers ReconcilingDeviceLink) = true
          · simp [Reconcile, hf, h1, h2, h3, h4]
          · cases hd : env.disconnectExisted <;> cases hul : env.updateLinkOk <;>
              simp [Reconcile, hf, h1, h2, h3, h4, hd, hul, disconnectEvents]
        · by_cases h5 : (!StringSliceContain link.finalizers ReconcilingDeviceLink) = true
          · cases hul : env.updateLinkOk <;>
              simp [Reconcile, hf, h1, h2, h3, h5, hul]
          · have hA := adaptorExistedStage_facts env link
            cases hAc : adaptorExistedStage env link with
            | done out =>
              obtain ⟨res1, evs1, link1⟩ := out
              rw [hAc] at hA
              obtain ⟨-, -, ha3, -, ha5⟩ := hA
              constructor
              · intro m hm
                simp only [Reconcile, hf, h1, h2, h3, h5, hAc] at hm
                simp at hm
                exact h2 ▸ ha3 m hm
              · intro c hc
                simp only [Reconcile, hf, h1, h2, h3, h5, hAc] at hc
                simp at hc
                exact absurd hc (ha5 c)
            | cont evs1 link1 =>
              rw [hAc] at hA
              obtain ⟨hevs1, hlink1, hTrue⟩ := hA
              subst hevs1
              have hB := deviceCreatedStage_facts env link1
              cases hBc : deviceCreatedStage env link1 with
              | done out =>
                obtain ⟨res2, evs2, link2⟩ := out
                rw [hBc] at hB
                obtain ⟨-, -, hb3, hb4⟩ := hB
                constructor
                · intro m hm
                  simp only [Reconcile, hf, h1, h2, h3, h5, hAc, hBc] at hm
                  simp at hm
                  rcases hm with hm | hm
                  · exact hm
                  · exact absurd hm (hb3 m)
                · intro c hc
                  simp only [Reconcile, hf, h1, h2, h3, h5, hAc, hBc] at hc
                  simp at hc
                  exact absurd hc (hb4 c)
              | cont evs2 link2 device =>
                rw [hBc] at hB
                obtain ⟨hlink2, hCreatedTrue, -, -, hb5, hb6⟩ := hB
                have hCn := deviceConnectedStage_facts env link2 device
                obtain ⟨-, -, hc3, hc4⟩ := hCn
                constructor
                · intro m hm
                  simp only [Reconcile, hf, h1, h2, h3, h5, hAc, hBc] at hm
                  simp at hm
                  rcases hm with hm | hm | hm
                  · exact hm
                  · exact absurd hm (hb5 m)
                  · exact absurd hm (hc3 m)
                · intro c hc
                  simp only [Reconcile, hf, h1, h2, h3, h5, hAc, hBc] at hc
                  simp at hc
                  rcases hc with hc | hc
                  · exact absurd hc (hb6 c)
                  · rw [hc4 c hc, hlink2, hCreatedTrue]

/-- Witness for C2: the steady-state pass contains both stage markers,
and the ordering theorem applies to them. -/
theorem reconcile_stage_ordering_witness :
    Event.evalAdaptorStage ConditionStatus.conditionTrue ∈ (Reconcile rcW envOkW linkSteadyW).2.1 ∧
    Event.evalDeviceConnectedStage ConditionStatus.conditionTrue ∈ (Reconcile rcW envOkW linkSteadyW).2.1 ∧
    ConditionStatus.conditionTrue = ConditionStatus.conditionTrue :=
  ⟨by decide, by decide,
   (reconcile_stage_ordering rcW envOkW linkSteadyW).1 .conditionTrue (by decide)⟩

/-! ### Claim C4: adaptor change while AdaptorExisted is True -/

/-- Helper: a declared adaptor never differs from a status adaptor whose
parameters mirror its own. -/
theorem compareAdaptorParameters_self (a b : DeviceAdaptor) :
    compareAdaptorParameters a { b with parameters := a.parameters } = false := by
  cases hp : a.parameters <;> simp [compareAdaptorParameters, hp]

/-- Counterexample to C4 as stated: with AdaptorExisted True and a
declared-vs-recorded name mismatch, a pass on a non-owning node
disconnects at the node gate and returns without resetting the condition
or writing the status. -/
theorem adaptor_mismatch_gated_counterexample :
    GetAdaptorExistedStatus linkSwapOtherNodeW.status = ConditionStatus.conditionTrue ∧
    linkSwapOtherNodeW.status.adaptorName ≠ linkSwapOtherNodeW.spec.adaptor.name ∧
    (Reconcile rcW envOkW linkSwapOtherNodeW).2.1.filter isLinkWriteEvent = [] ∧
    (Reconcile rcW envOkW linkSwapOtherNodeW).2.2.status.adaptorExisted
      = ConditionStatus.conditionTrue := by
  decide

/-- C4 amended: for every pass that reaches the AdaptorExisted stage
(fetch succeeds, node matches, ModelExisted True, not deleted, finalizer
present) with AdaptorExisted True and a mismatch (adaptor gone, name
drift, or byte-different parameters), the pass calls Disconnect, resets
AdaptorExisted to Unknown, issues the status write, and returns without
evaluating the DeviceCreated or DeviceConnected stages. -/
theorem adaptor_mismatch_resets_and_stops (r : DeviceLinkReconciler) (env : Env)
    (link : DeviceLink)
    (hf : env.fetchLink = FetchLinkResult.found)
    (hnode : link.status.nodeName = r.NodeName)
    (hmodel : GetModelExistedStatus link.status = ConditionStatus.conditionTrue)
    (hdel : IsDeleted link = false)
    (hfin : StringSliceContain link.finalizers ReconcilingDeviceLink = true)
    (hae : GetAdaptorExistedStatus link.status = ConditionStatus.conditionTrue)
    (hmis : env.existAdaptor = false ∨ link.status.adaptorName ≠ link.spec.adaptor.name ∨
        compareAdaptorParameters link.spec.adaptor link.status.adaptor = true) :
    Event.disconnect ∈ (Reconcile r env link).2.1 ∧
    Event.updateLinkStatus (ToCheckAdaptorExisted link.status) ∈ (Reconcile r env link).2.1 ∧
    (ToCheckAdaptorExisted link.status).adaptorExisted = ConditionStatus.conditionUnknown ∧
    (∀ c, Event.evalDeviceCreatedStage c ∉ (Reconcile r env link).2.1) ∧
    (∀ c, Event.evalDeviceConnectedStage c ∉ (Reconcile r env link).2.1) ∧
    (Reconcile r env link).2.2.status.adaptorExisted = ConditionStatus.conditionUnknown := by
  have hcond : (!env.existAdaptor || link.status.adaptorName != link.spec.adaptor.name
      || compareAdaptorParameters link.spec.adaptor link.status.adaptor) = true := by
    rcases hmis with h | h | h <;> simp [h]
  simp only [IsDeleted] at hdel
  cases hs : env.updateStatusOk <;> cases hd : env.disconnectExisted <;>
    simp [Reconcile, adaptorExistedStage, updateStatusAndReturn_eq, disconnectEvents,
      ToCheckAdaptorExisted, IsDeleted, hf, hnode, hmodel, hdel, hfin, hae, hcond, hs, hd]

/-- Witness for C4 at the adaptor-swap link on the owning node. -/
theorem adaptor_mismatch_resets_and_stops_witness :
    Event.disconnect ∈ (Reconcile rcW envOkW linkSwapW).2.1 ∧
    Event.updateLinkStatus (ToCheckAdaptorExisted linkSwapW.status) ∈ (Reconcile rcW envOkW linkSwapW).2.1 ∧
    (ToCheckAdaptorExisted linkSwapW.status).adaptorExisted = ConditionStatus.conditionUnknown ∧
    (∀ c, Event.evalDeviceCreatedStage c ∉ (Reconcile rcW envOkW linkSwapW).2.1) ∧
    (∀ c, Event.evalDeviceConnectedStage c ∉ (Reconcile rcW envOkW linkSwapW).2.1) ∧
    (Reconcile rcW envOkW linkSwapW).2.2.status.adaptorExisted = ConditionStatus.conditionUnknown :=
  adaptor_mismatch_resets_and_stops rcW envOkW linkSwapW rfl rfl rfl rfl (by decide) rfl
    (Or.inr (Or.inl (by decide)))

/-! ### Claim C8: deletion and finalizer lifecycle -/

/-- Helper: removing the marker leaves a slice that no longer contains
it. -/
theorem StringSliceContain_remove (ss : List String) (s : String) :
    StringSliceContain (StringSliceRemove ss s) s = false := by
  induction ss with
  | nil => rfl
  | cons a t ih =>
    by_cases h : a = s
    · simpa [StringSliceRemove, List.filter_cons, h] using ih
    · simp [StringSliceRemove, StringSliceContain, List.filter_cons, bne_iff_ne, h,
        List.contains_cons, Ne.symm h]

/-- Counterexample to C8 as stated: a deleted link without the finalizer
marker, bound to another node, still triggers a Disconnect call (at the
node-affinity gate), contradicting "stops with no disconnect". -/
theorem deletion_no_finalizer_disconnects_counterexample :
    IsDeleted linkDeletedOtherNodeW = true ∧
    StringSliceContain linkDeletedOtherNodeW.finalizers ReconcilingDeviceLink = false ∧
    Event.disconnect ∈ (Reconcile rcW envOkW linkDeletedOtherNodeW).2.1 := by
  decide

/-- C8 amended: for every pass on a deleted link that reaches the
deletion gate (fetch succeeds, node matches, ModelExisted True): without
the finalizer marker the pass stops with an empty effect trace; with it,
the pass calls Disconnect exactly once (decrementing the connection
counter when a connection existed), removes the marker, performs exactly
one store write (the record update), and reports a write failure as
retryable. -/
theorem deletion_gate_spec (r : DeviceLinkReconciler) (env : Env) (link : DeviceLink)
    (hf : env.fetchLink = FetchLinkResult.found)
    (hnode : link.status.nodeName = r.NodeName)
    (hmodel : GetModelExistedStatus link.status = ConditionStatus.conditionTrue)
    (hdel : IsDeleted link = true) :
    (StringSliceContain link.finalizers ReconcilingDeviceLink = false →
        (Reconcile r env link).2.1 = [] ∧ (Reconcile r env link).1.requeue = false) ∧
    (StringSliceContain link.finalizers ReconcilingDeviceLink = true →
        countEvents isDisconnectEvent (Reconcile r env link).2.1 = 1 ∧
        (env.disconnectExisted = true →
            Event.decreaseConnections link.status.adaptorName ∈ (Reconcile r env link).2.1) ∧
        StringSliceContain (Reconcile r env link).2.2.finalizers ReconcilingDeviceLink = false ∧
        Event.updateLink (StringSliceRemove link.finalizers ReconcilingDeviceLink)
          ∈ (Reconcile r env link).2.1 ∧
        countEvents isStoreWriteEvent (Reconcile r env link).2.1 = 1 ∧
        (Reconcile r env link).1.requeue = (!env.updateLinkOk)) := by
  simp only [IsDeleted] at hdel
  constructor
  · intro hnofin
    simp [Reconcile, IsDeleted, hf, hnode, hmodel, hdel, hnofin]
  · intro hfin
    cases hd : env.disconnectExisted <;> cases hul : env.updateLinkOk <;>
      simp [Reconcile, IsDeleted, hf, hnode, hmodel, hdel, hfin, hd, hul, disconnectEvents,
        countEvents, List.filter_append, List.filter, isDisconnectEvent, isStoreWriteEvent,
        isLinkWriteEvent, isDeviceWriteEvent, StringSliceContain_remove]

/-- Witness for C8 on a deleted link carrying the finalizer, with a live
connection. -/
theorem deletion_gate_spec_witness :
    countEvents isDisconnectEvent (Reconcile rcW envDiscW linkDeletedW).2.1 = 1 ∧
    (envDiscW.disconnectExisted = true →
        Event.decreaseConnections linkDeletedW.status.adaptorName
          ∈ (Reconcile rcW envDiscW linkDeletedW).2.1) ∧
    StringSliceContain (Reconcile rcW envDiscW linkDeletedW).2.2.finalizers ReconcilingDeviceLink
      = false ∧
    Event.updateLink (StringSliceRemove linkDeletedW.finalizers ReconcilingDeviceLink)
      ∈ (Reconcile rcW envDiscW linkDeletedW).2.1 ∧
    countEvents isStoreWriteEvent (Reconcile rcW envDiscW linkDeletedW).2.1 = 1 ∧
    (Reconcile rcW envDiscW linkDeletedW).1.requeue = (!envDiscW.updateLinkOk) :=
  (deletion_gate_spec rcW envDiscW linkDeletedW rfl rfl rfl rfl).2 (by decide)

/-! ### Claim C5: first pass over an Unknown AdaptorExisted condition -/

/-- Counterexample to C5 as stated: on a fresh link (AdaptorExisted
Unknown, declared adaptor exists), the pass sets AdaptorExisted to True,
writes the status and returns; it does not fall through to the
DeviceCreated stage in the same pass (no stage marker, no device write,
DeviceCreated still Unknown). -/
theorem adaptor_unknown_pass_stops_counterexample :
    GetAdaptorExistedStatus linkFreshW.status = ConditionStatus.conditionUnknown ∧
    envOkW.existAdaptor = true ∧
    (Reconcile rcW envOkW linkFreshW).2.2.status.adaptorExisted = ConditionStatus.conditionTrue ∧
    (Reconcile rcW envOkW linkFreshW).2.1.filter isEvalDeviceCreatedStage = [] ∧
    (Reconcile rcW envOkW linkFreshW).2.1.filter isDeviceWriteEvent = [] ∧
    (Reconcile rcW envOkW linkFreshW).2.2.status.deviceCreated = ConditionStatus.conditionUnknown := by
  decide

/-- C5 amended: the pass that evaluates AdaptorExisted in the Unknown
state with an existing declared adaptor sets it to True, records the
adaptor identity, writes the status and stops before the DeviceCreated
stage; the device is then created on the next pass, which sets
DeviceCreated to True. -/
theorem fresh_link_two_pass_creates_device (r : DeviceLinkReconciler) (env1 env2 : Env)
    (link : DeviceLink) (sm : AMap Nat)
    (hf1 : env1.fetchLink = FetchLinkResult.found)
    (hf2 : env2.fetchLink = FetchLinkResult.found)
    (hnode : link.status.nodeName = r.NodeName)
    (hmodel : GetModelExistedStatus link.status = ConditionStatus.conditionTrue)
    (hdel : IsDeleted link = false)
    (hfin : StringSliceContain link.finalizers ReconcilingDeviceLink = true)
    (hae : GetAdaptorExistedStatus link.status = ConditionStatus.conditionUnknown)
    (hdc : GetDeviceCreatedStatus link.status = ConditionStatus.conditionUnknown)
    (hex1 : env1.existAdaptor = true)
    (hs1 : env1.updateStatusOk = true)
    (hex2 : env2.existAdaptor = true)
    (hraw : link.spec.template.specRaw = SpecPayload.wellFormed sm)
    (hcr : env2.createDevice = CreateDeviceResult.ok) :
    (∀ c, Event.evalDeviceCreatedStage c ∉ (Reconcile r env1 link).2.1) ∧
    (Reconcile r env1 link).2.2.status.adaptorExisted = ConditionStatus.conditionTrue ∧
    Event.updateLinkStatus (Reconcile r env1 link).2.2.status ∈ (Reconcile r env1 link).2.1 ∧
    (Reconcile r env1 link).1.requeue = false ∧
    (∃ d, Event.createDevice d ∈ (Reconcile r env2 (Reconcile r env1 link).2.2).2.1) ∧
    (Reconcile r env2 (Reconcile r env1 link).2.2).2.2.status.deviceCreated
      = ConditionStatus.conditionTrue := by
  simp only [IsDeleted] at hdel
  have hpass1 : Reconcile r env1 link =
      (⟨false⟩,
       [Event.evalAdaptorStage (GetModelExistedStatus link.status),
        Event.updateLinkStatus
          { SuccessOnAdaptorExisted link.status with
            adaptorName := link.spec.adaptor.name
            adaptor := { link.status.adaptor with parameters := link.spec.adaptor.parameters } }],
       { link with status :=
          { SuccessOnAdaptorExisted link.status with
            adaptorName := link.spec.adaptor.name
            adaptor := { link.status.adaptor with parameters := link.spec.adaptor.parameters } } }) := by
    simp [Reconcile, adaptorExistedStage, updateStatusAndReturn_eq, IsDeleted,
      SuccessOnAdaptorExisted, hf1, hnode, hmodel, hdel, hfin, hae, hex1, hs1]
  rw [hpass1]
  refine ⟨by simp, by simp [SuccessOnAdaptorExisted], by simp, rfl, ?_⟩
  simp only [GetModelExistedStatus] at hmodel
  simp only [GetDeviceCreatedStatus] at hdc
  cases hs2 : env2.updateStatusOk <;>
    simp [Reconcile, adaptorExistedStage, deviceCreatedStage, constructDevice,
      updateStatusAndReturn_eq, jsoniterUnmarshal, IsDeleted, SuccessOnAdaptorExisted,
      SuccessOnDeviceCreated, GetModelExistedStatus, GetAdaptorExistedStatus,
      GetDeviceCreatedStatus, compareAdaptorParameters_self, createErrIsErr,
      createErrIsAlreadyExists, createErrIsNoMatch,
      hf2, hnode, hmodel, hdc, hdel, hfin, hex2, hraw, hcr, hs2]

/-- Witness for C5 on the fresh link with template `{labels:{d:1},
spec:{p:10}}`. -/
theorem fresh_link_two_pass_creates_device_witness :
    (∀ c, Event.evalDeviceCreatedStage c ∉ (Reconcile rcW envOkW linkFreshW).2.1) ∧
    (Reconcile rcW envOkW linkFreshW).2.2.status.adaptorExisted = ConditionStatus.conditionTrue ∧
    Event.updateLinkStatus (Reconcile rcW envOkW linkFreshW).2.2.status
      ∈ (Reconcile rcW envOkW linkFreshW).2.1 ∧
    (Reconcile rcW envOkW linkFreshW).1.requeue = false ∧
    (∃ d, Event.createDevice d
        ∈ (Reconcile rcW envOkW (Reconcile rcW envOkW linkFreshW).2.2).2.1) ∧
    (Reconcile rcW envOkW (Reconcile rcW envOkW linkFreshW).2.2).2.2.status.deviceCreated
      = ConditionStatus.conditionTrue :=
  fresh_link_two_pass_creates_device rcW envOkW envOkW linkFreshW [("p", 10)]
    rfl rfl rfl rfl rfl (by decide) rfl rfl rfl rfl rfl rfl rfl

/-! ### Claim C6: schema mismatch on device create -/

/-- C6 (divergence witness): when the store reports "no matching schema"
on device create, the pass returns a requeue signal with no status write,
no event emission, and DeviceCreated left Unknown.  The
`meta.IsNoMatchError` arm of the create branch (devicelink.go lines
222-224), which would set DeviceCreated to False with the distinct "model
is not existed" message, is unreachable: any no-match error already takes
the not-already-exists requeue return at line 219. -/
theorem create_no_match_requeues_without_status_write :
    envNoMatchW.createDevice = CreateDeviceResult.noMatch ∧
    (Reconcile rcW envNoMatchW linkCreateW).1.requeue = true ∧
    (Reconcile rcW envNoMatchW linkCreateW).2.1.filter isLinkWriteEvent = [] ∧
    (Reconcile rcW envNoMatchW linkCreateW).2.1.filter isEmitEvent = [] ∧
    (Reconcile rcW envNoMatchW linkCreateW).2.2.status.deviceCreated
      = ConditionStatus.conditionUnknown := by
  decide
